import Mathlib

/-!
Verification of the incarts-analytics-api analytical query layer.

The development shallow-embeds the query-building endpoints
(`app/api/v1/endpoints/{campaigns,links,overview}.py`), the emulated
executor (`SupabaseConnection._execute_sql` in `app/db/database.py`,
which pattern-matches the rendered SQL text and replays it with
PostgREST-style single-table operations), and the relational semantics
of the rendered SQL for the plan shapes the claims exercise.

Python values flowing through the layer (query parameters, row cells)
are modelled by the `Value` type; a result row is an ordered list of
named cells, matching the dict rows the connection wrappers return.
-/

set_option maxRecDepth 16384

namespace Incarts

/-- Primitive value as passed to or returned from either backend.
`Value.null` stands for Python `None` / SQL NULL; `Value.d y m dd`
stands for a Python `datetime.date` object. -/
inductive Value where
  | null
  | i (n : Int)
  | f (q : Rat)
  | s (v : String)
  | b (v : Bool)
  | d (y m dd : Nat)
deriving DecidableEq, Repr

/-- Python truthiness of a value, used by `_execute_sql`'s
`if campaign_key:` / `if link_type:` style guards. -/
def Value.truthy : Value → Bool
  | .null => false
  | .i n => decide (n ≠ 0)
  | .f q => decide (q ≠ 0)
  | .s v => decide (v ≠ "")
  | .b v => v
  | .d _ _ _ => true

/-- One result row: an ordered mapping column name to value. -/
abbrev Row := List (String × Value)

/-- Value of a named cell in a row, if present. -/
def lookupField (r : Row) (k : String) : Option Value :=
  (r.find? (fun p => decide (p.1 = k))).map (fun p => p.2)

/-- SupabaseConnection.fetchval: first column of the first row;
Python `None` (no rows, empty row, or a NULL cell) is `Value.null`. -/
def fetchval (rows : List Row) : Value :=
  match rows with
  | [] => .null
  | r :: _ =>
    match r with
    | [] => .null
    | (_, v) :: _ => v

/-- Endpoint-side scalar normalization `result if result is not None
else default` used by every KPI endpoint. -/
def kpiValue (raw : Value) (dflt : Value) : Value :=
  if raw = .null then dflt else raw

/-- Helper `_get_value(record, key, default)` from the endpoint modules:
`record[key] if record and record[key] is not None else default`.
An empty record is falsy in Python, hence the `isEmpty` branch.  At
every call site `key` is a column selected by the query, so the
missing-key branch (a Python `KeyError`) is unreachable; the model
returns the default there. -/
def getValue (record : Row) (key : String) (dflt : Value) : Value :=
  if record.isEmpty then dflt
  else
    match lookupField record key with
    | some v => if v = .null then dflt else v
    | none => dflt

/-! ## Warehouse state

Star-schema tables touched by the claims, with exactly the columns the
queries reference. -/

/-- Row of the `factlinkclicks` fact table. -/
structure FactClick where
  clickfactkey : Nat
  campaignkey : Nat
  linkkey : Nat
  datekey : Nat
  is_atc_click : Bool
  click_value : Int
deriving DecidableEq, Repr

/-- Row of the `dimcampaign` dimension table. -/
structure DimCampaign where
  campaignkey : Nat
  campaign_natural_key : String
deriving DecidableEq, Repr

/-- Row of the `dimlink` dimension table. -/
structure DimLink where
  linkkey : Nat
  link_type_name : String
deriving DecidableEq, Repr

/-- Row of the `dimpage` dimension table. -/
structure DimPage where
  pagekey : Nat
  page_natural_key : String
deriving DecidableEq, Repr

/-- Row of the `factpagevisits` fact table. -/
structure FactPageVisit where
  pagevisitfactkey : Nat
  pagekey : Nat
  datekey : Nat
deriving DecidableEq, Repr

/-- Warehouse contents seen by both executors. -/
structure Warehouse where
  factlinkclicks : List FactClick
  dimcampaign : List DimCampaign
  dimlink : List DimLink
  dimpage : List DimPage
  factpagevisits : List FactPageVisit
deriving DecidableEq, Repr

/-- Emulated-executor backend handle: the warehouse plus fault switches
for the PostgREST calls `_execute_sql` makes.  A `false` switch models
the corresponding API call raising, which the source catches
(`except Exception as e: logger.warning(...)` for the dimension
lookups, the outer `except ...: return []` for everything else). -/
structure Backend where
  w : Warehouse
  campaignLookupOk : Bool
  linkLookupOk : Bool
  pageLookupOk : Bool
  mainOk : Bool
deriving DecidableEq, Repr

/-! ## Date conversion (`convert_date_to_int`)

`database.py` lines 234-243: strings are parsed with
`datetime.strptime(s, "%Y-%m-%d")` (any failure yields `None`), and any
object with `strftime` is rendered as `int(strftime("%Y%m%d"))`.
CPython's `_strptime` compiles the format to the regex
`(?P<Y>\d\d\d\d)-(?P<m>1[0-2]|0[1-9]|[1-9])-(?P<d>3[01]|[12]\d|0[1-9]|[1-9])`
anchored on both ends, then builds a `datetime`, which validates the
calendar date; the parser below reproduces that regex, alternation
order and backtracking included. -/

/-- Greedy prefix of at most `n` decimal digits, with the rest. -/
def takeDigitsUpTo : Nat → List Char → List Char × List Char
  | 0, cs => ([], cs)
  | _ + 1, [] => ([], [])
  | n + 1, c :: cs =>
    if c.isDigit then
      let p := takeDigitsUpTo n cs
      (c :: p.1, p.2)
    else ([], c :: cs)

/-- Numeric value of a digit string. -/
def digitsToNat (ds : List Char) : Nat :=
  ds.foldl (fun acc c => acc * 10 + (c.toNat - 48)) 0

/-- Candidate parses of `%m`, regex `(1[0-2]|0[1-9]|[1-9])`, in
alternation order. -/
def monthCandidates (cs : List Char) : List (Nat × List Char) :=
  (match cs with
   | '1' :: c :: rest =>
     if '0' ≤ c ∧ c ≤ '2' then [(10 + (c.toNat - 48), rest)] else []
   | _ => []) ++
  (match cs with
   | '0' :: c :: rest =>
     if '1' ≤ c ∧ c ≤ '9' then [(c.toNat - 48, rest)] else []
   | _ => []) ++
  (match cs with
   | c :: rest =>
     if '1' ≤ c ∧ c ≤ '9' then [(c.toNat - 48, rest)] else []
   | _ => [])

/-- Candidate parses of `%d`, regex `(3[01]|[12]\d|0[1-9]|[1-9])`, in
alternation order. -/
def dayCandidates (cs : List Char) : List (Nat × List Char) :=
  (match cs with
   | '3' :: c :: rest =>
     if c = '0' ∨ c = '1' then [(30 + (c.toNat - 48), rest)] else []
   | _ => []) ++
  (match cs with
   | c1 :: c2 :: rest =>
     if (c1 = '1' ∨ c1 = '2') ∧ c2.isDigit then
       [((c1.toNat - 48) * 10 + (c2.toNat - 48), rest)]
     else []
   | _ => []) ++
  (match cs with
   | '0' :: c :: rest =>
     if '1' ≤ c ∧ c ≤ '9' then [(c.toNat - 48, rest)] else []
   | _ => []) ++
  (match cs with
   | c :: rest =>
     if '1' ≤ c ∧ c ≤ '9' then [(c.toNat - 48, rest)] else []
   | _ => [])

/-- First candidate whose continuation succeeds (regex backtracking). -/
def firstContinuing {α : Type} (f : Nat × List Char → Option α) :
    List (Nat × List Char) → Option α
  | [] => none
  | x :: xs =>
    match f x with
    | some r => some r
    | none => firstContinuing f xs

/-- Match the whole `%Y-%m-%d` regex against the character list.
`%Y` is exactly four digits in CPython's table. -/
def parseYMDChars (cs : List Char) : Option (Nat × Nat × Nat) :=
  let p := takeDigitsUpTo 4 cs
  if p.1.length ≠ 4 then none
  else
    match p.2 with
    | '-' :: restY =>
      firstContinuing (fun mc =>
        match mc.2 with
        | '-' :: restM =>
          firstContinuing (fun dc =>
            if dc.2.isEmpty then some (digitsToNat p.1, mc.1, dc.1) else none)
            (dayCandidates restM)
        | _ => none) (monthCandidates restY)
    | _ => none

/-- Gregorian leap year, as `datetime` uses. -/
def isLeapYear (y : Nat) : Bool :=
  decide ((y % 4 = 0 ∧ y % 100 ≠ 0) ∨ y % 400 = 0)

/-- Length of a month, as `datetime` validates. -/
def daysInMonth (y m : Nat) : Nat :=
  if m = 2 then (if isLeapYear y then 29 else 28)
  else if m = 4 ∨ m = 6 ∨ m = 9 ∨ m = 11 then 30
  else 31

/-- strptime(s, "%Y-%m-%d") as the triple (year, month, day);
`none` models the `ValueError` the bare `except` swallows, including
the `datetime` constructor's range validation (MINYEAR = 1). -/
def strptimeYMD (s : String) : Option (Nat × Nat × Nat) :=
  match parseYMDChars s.toList with
  | some (y, m, dd) =>
    if 1 ≤ y ∧ 1 ≤ dd ∧ dd ≤ daysInMonth y m then some (y, m, dd) else none
  | none => none

/-- int(strftime("%Y%m%d")) of a valid date: months and days are
zero-padded to two digits, so the integer is y·10⁴ + m·10² + d. -/
def toYYYYMMDD (y m dd : Nat) : Nat := y * 10000 + m * 100 + dd

/-- convert_date_to_int from `_execute_sql`: strings go through
strptime (failure gives `None`), anything with `strftime` (a date
object) is rendered directly, everything else gives `None`. -/
def convert_date_to_int : Value → Option Nat
  | .s str => (strptimeYMD str).map (fun t => toYYYYMMDD t.1 t.2.1 t.2.2)
  | .d y m dd => some (toYYYYMMDD y m dd)
  | _ => none

/-- Claim-side definition (from the claim's words, for comparison with
the code's conversion): a string in the exact form YYYY-MM-DD, four
digits, dash, two digits, dash, two digits. -/
def isExactYMDForm (s : String) : Bool :=
  match s.toList with
  | [a, b, c, dd, '-', e, f, '-', g, h] =>
    a.isDigit && b.isDigit && c.isDigit && dd.isDigit &&
    e.isDigit && f.isDigit && g.isDigit && h.isDigit
  | _ => false

/-! ## Emulated executor (`SupabaseConnection._execute_sql`)

`database.py` lines 220-428: the rendered SQL text is dispatched by
substring matching, and each recognised shape is replayed with
PostgREST-style single-table operations. -/

/-- Whether `pat` is a prefix of `cs`. -/
def charListBeginsWith : List Char → List Char → Bool
  | _, [] => true
  | [], _ :: _ => false
  | c :: cs, p :: ps => decide (c = p) && charListBeginsWith cs ps

/-- Whether `pat` occurs contiguously in the character list. -/
def charListHasSub (pat : List Char) : List Char → Bool
  | [] => pat.isEmpty
  | c :: rest => charListBeginsWith (c :: rest) pat || charListHasSub pat rest

/-- Python's `pat in s` substring test. -/
def containsSub (s pat : String) : Bool :=
  charListHasSub pat.toList s.toList

/-- Python's `str.upper()` (the queries are ASCII). -/
def pyUpper (s : String) : String :=
  String.mk (s.toList.map Char.toUpper)

/-- Python whitespace for `str.strip()` / `str.split()`. -/
def pyIsSpace (c : Char) : Bool :=
  decide (c = ' ' ∨ c = '\t' ∨ c = '\n' ∨ c = '\r' ∨ c = '\x0b' ∨ c = '\x0c')

/-- Python's `str.strip()` on a character list. -/
def pyStrip (cs : List Char) : List Char :=
  ((cs.dropWhile pyIsSpace).reverse.dropWhile pyIsSpace).reverse

/-- Suffix after the first occurrence of `pat`, if any. -/
def splitFirstAt (pat : List Char) : List Char → Option (List Char)
  | [] => if pat.isEmpty then some [] else none
  | c :: rest =>
    if charListBeginsWith (c :: rest) pat then
      some ((c :: rest).drop pat.length)
    else splitFirstAt pat rest

/-- Prefix before the first occurrence of `pat` (all of it if none). -/
def takeUntilSub (pat : List Char) : List Char → List Char
  | [] => []
  | c :: rest =>
    if charListBeginsWith (c :: rest) pat then []
    else c :: takeUntilSub pat rest

/-- One PostgREST filter applied to the `factlinkclicks` builder, in
application order.  `linkIn` covers both the `eq` (singleton) and
`in_` calls of the source, which agree on membership semantics. -/
inductive FactFilter where
  | atcTrue
  | campaignEq (k : Nat)
  | linkIn (ks : List Nat)
  | dateGe (n : Nat)
  | dateLe (n : Nat)
deriving DecidableEq, Repr

/-- Whether a fact row passes one filter. -/
def factMatches (f : FactClick) : FactFilter → Bool
  | .atcTrue => f.is_atc_click
  | .campaignEq k => decide (f.campaignkey = k)
  | .linkIn ks => decide (f.linkkey ∈ ks)
  | .dateGe n => decide (n ≤ f.datekey)
  | .dateLe n => decide (f.datekey ≤ n)

/-- PostgREST `eq(column, value)` against a string column. -/
def Value.eqStr (v : Value) (s : String) : Bool :=
  decide (v = Value.s s)

/-- Python truthiness of the converted date key: `if start_date_int:`
is false both for `None` and for `0`. -/
def truthyOptNat : Option Nat → Bool
  | some n => decide (n ≠ 0)
  | none => false

/-- Date-bound application from the count branches: each bound is
added only when its converted integer is truthy, so an unconvertible
bound is dropped with no error. -/
def applyDateFilters (fs : List FactFilter) (si ei : Option Nat) :
    List FactFilter :=
  let fs1 := match si with
    | some n => if n ≠ 0 then fs ++ [.dateGe n] else fs
    | none => fs
  match ei with
  | some n => if n ≠ 0 then fs1 ++ [.dateLe n] else fs1
  | none => fs1

/-- Element `args[i]`; the source only indexes after a length guard,
so the default is unreachable. -/
def argAt (args : List Value) (i : Nat) : Value :=
  args.getD i .null

/-- The `factlinkclicks` COUNT branch, `database.py` lines 246-348. -/
def emulateClickCount (b : Backend) (q : String) (args : List Value) :
    List Row :=
  let Q := pyUpper q
  let is_atc_query := containsSub Q "IS_ATC_CLICK = TRUE"
  let campaign_key : Option Value :=
    if containsSub Q "JOIN DIMCAMPAIGN" && containsSub Q "CAMPAIGN_NATURAL_KEY"
        && decide (1 ≤ args.length) then
      some (argAt args 0)
    else none
  let link_type : Option Value :=
    if containsSub Q "JOIN DIMLINK" && containsSub Q "LINK_TYPE_NAME"
        && decide (1 ≤ args.length) then
      if containsSub Q "CAMPAIGN_NATURAL_KEY" then
        (if decide (2 ≤ args.length) then some (argAt args 1) else none)
      else some (argAt args 0)
    else none
  let pos :=
    (if containsSub Q "CAMPAIGN_NATURAL_KEY" then 1 else 0) +
    (if containsSub Q "LINK_TYPE_NAME" && containsSub Q "JOIN DIMLINK"
     then 1 else 0)
  let dates : Option Nat × Option Nat :=
    if decide (pos + 1 < args.length) then
      (convert_date_to_int (argAt args pos),
       convert_date_to_int (argAt args (pos + 1)))
    else (none, none)
  let fs0 : List FactFilter := []
  let fs1 := if is_atc_query then fs0 ++ [.atcTrue] else fs0
  let fs2 :=
    match campaign_key with
    | some ck =>
      if ck.truthy then
        if b.campaignLookupOk then
          match b.w.dimcampaign.filter
              (fun c => ck.eqStr c.campaign_natural_key) with
          | c :: _ => fs1 ++ [.campaignEq c.campaignkey]
          | [] => fs1
        else fs1
      else fs1
    | none => fs1
  let fs3 :=
    match link_type with
    | some lt =>
      if lt.truthy then
        if b.linkLookupOk then
          match (b.w.dimlink.filter
              (fun l => lt.eqStr l.link_type_name)).map
              (fun l => l.linkkey) with
          | k :: ks => fs2 ++ [.linkIn (k :: ks)]
          | [] => fs2
        else fs2
      else fs2
    | none => fs2
  let fs4 := applyDateFilters fs3 dates.1 dates.2
  let count := (b.w.factlinkclicks.filter
    (fun f => fs4.all (factMatches f))).length
  if containsSub Q "TOTAL_ATC_CLICKS" then
    [[("total_atc_clicks", .i count)]]
  else
    [[("total_clicks", .i count)]]

/-- Filter applied to the `factpagevisits` builder. -/
inductive VisitFilter where
  | pageEq (k : Nat)
  | dateGe (n : Nat)
  | dateLe (n : Nat)
deriving DecidableEq, Repr

/-- Whether a page-visit row passes one filter. -/
def visitMatches (f : FactPageVisit) : VisitFilter → Bool
  | .pageEq k => decide (f.pagekey = k)
  | .dateGe n => decide (n ≤ f.datekey)
  | .dateLe n => decide (f.datekey ≤ n)

/-- The `factpagevisits` COUNT branch, `database.py` lines 351-402.
Unlike the click branch, the date argument offset here depends on the
truthiness of the extracted page key, not on the query text. -/
def emulateVisitCount (b : Backend) (q : String) (args : List Value) :
    List Row :=
  let Q := pyUpper q
  let page_key : Option Value :=
    if containsSub Q "JOIN DIMPAGE" && containsSub Q "PAGE_NATURAL_KEY"
        && decide (1 ≤ args.length) then
      some (argAt args 0)
    else none
  let pkTruthy := match page_key with
    | some pk => pk.truthy
    | none => false
  let pos := if pkTruthy then 1 else 0
  let dates : Option Nat × Option Nat :=
    if decide (pos + 1 < args.length) then
      (convert_date_to_int (argAt args pos),
       convert_date_to_int (argAt args (pos + 1)))
    else (none, none)
  let fs0 : List VisitFilter := []
  let fs1 : List VisitFilter :=
    match page_key with
    | some pk =>
      if pk.truthy then
        if b.pageLookupOk then
          match b.w.dimpage.filter
              (fun p => pk.eqStr p.page_natural_key) with
          | p :: _ => fs0 ++ [.pageEq p.pagekey]
          | [] => fs0
        else fs0
      else fs0
    | none => fs0
  let fs2 : List VisitFilter := match dates.1 with
    | some n => if n ≠ 0 then fs1 ++ [.dateGe n] else fs1
    | none => fs1
  let fs3 : List VisitFilter := match dates.2 with
    | some n => if n ≠ 0 then fs2 ++ [.dateLe n] else fs2
    | none => fs2
  let count := (b.w.factpagevisits.filter
    (fun f => fs3.all (visitMatches f))).length
  [[("value", .i count)]]

/-- Dict serialization of a `factlinkclicks` row. -/
def factClickRow (f : FactClick) : Row :=
  [("clickfactkey", .i f.clickfactkey), ("campaignkey", .i f.campaignkey),
   ("linkkey", .i f.linkkey), ("datekey", .i f.datekey),
   ("is_atc_click", .b f.is_atc_click), ("click_value", .i f.click_value)]

/-- Dict serialization of a `dimcampaign` row. -/
def dimCampaignRow (c : DimCampaign) : Row :=
  [("campaignkey", .i c.campaignkey),
   ("campaign_natural_key", .s c.campaign_natural_key)]

/-- Dict serialization of a `dimlink` row. -/
def dimLinkRow (l : DimLink) : Row :=
  [("linkkey", .i l.linkkey), ("link_type_name", .s l.link_type_name)]

/-- Dict serialization of a `dimpage` row. -/
def dimPageRow (p : DimPage) : Row :=
  [("pagekey", .i p.pagekey), ("page_natural_key", .s p.page_natural_key)]

/-- Dict serialization of a `factpagevisits` row. -/
def factPageVisitRow (f : FactPageVisit) : Row :=
  [("pagevisitfactkey", .i f.pagevisitfactkey), ("pagekey", .i f.pagekey),
   ("datekey", .i f.datekey)]

/-- Rows of a named table; `none` for a table PostgREST rejects. -/
def rowsOfTable (w : Warehouse) (name : String) : Option (List Row) :=
  if name = "factlinkclicks" then some (w.factlinkclicks.map factClickRow)
  else if name = "dimcampaign" then some (w.dimcampaign.map dimCampaignRow)
  else if name = "dimlink" then some (w.dimlink.map dimLinkRow)
  else if name = "dimpage" then some (w.dimpage.map dimPageRow)
  else if name = "factpagevisits" then
    some (w.factpagevisits.map factPageVisitRow)
  else none

/-- Table name extraction of the generic SELECT branch:
`query.upper().split("FROM")[1].strip().split()[0].strip().lower()`. -/
def tableNameOf (q : String) : Option String :=
  match (splitFirstAt "FROM".toList (pyUpper q).toList).map
      (takeUntilSub "FROM".toList) with
  | some piece =>
    let t := pyStrip piece
    if t.isEmpty then none
    else some (String.mk ((t.takeWhile (fun c => ¬ pyIsSpace c)).map Char.toLower))
  | none => none

/-- `_execute_sql`, `database.py` lines 220-428: substring dispatch in
source order; the final `[]` covers both the unrecognised-query branch
and the `GROUP BY` branch's `return []`; `b.mainOk = false` models any
uncaught PostgREST failure, which the outer `except` turns into `[]`. -/
def executeSql (b : Backend) (q : String) (args : List Value) :
    List Row :=
  if ¬ b.mainOk then []
  else if containsSub q "123 AS test_value" then [[("test_value", .i 123)]]
  else if containsSub (pyUpper q) "COUNT" &&
          containsSub (pyUpper q) "FACTLINKCLICKS" then
    emulateClickCount b q args
  else if containsSub (pyUpper q) "COUNT" &&
          containsSub (pyUpper q) "FACTPAGEVISITS" then
    emulateVisitCount b q args
  else if containsSub (pyUpper q) "GROUP BY" then []
  else if charListBeginsWith (pyUpper (String.mk (pyStrip q.toList))).toList
            "SELECT".toList &&
          containsSub (pyUpper q) "FROM" then
    match tableNameOf q with
    | some name =>
      match rowsOfTable b.w name with
      | some rs => rs.take 100
      | none => []
    | none => []
  else []

/-- fetchval through the emulated executor. -/
def emuFetchval (b : Backend) (q : String) (args : List Value) : Value :=
  fetchval (executeSql b q args)

/-! ## Endpoint query builders

The endpoints assemble the SQL text from a base part, a conditions
list joined with " AND ", and positional parameters numbered by a
running `param_idx`; the strings below keep the source text with the
decorative indentation of the Python triple-quoted literals removed
(no substring the emulator dispatches on is affected). -/

/-- Python `" AND ".join(conditions)`. -/
def joinConds (cs : List String) : String := String.intercalate " AND " cs

/-- Python `"\n".join(query_parts)`. -/
def joinParts (ps : List String) : String := String.intercalate "\n" ps

/-- Base part of `get_campaign_total_clicks`, campaigns.py 26-32. -/
def campaignClicksBase : String :=
  "SELECT COALESCE(COUNT(ffc.clickfactkey), 0) AS total_clicks\n" ++
  "FROM factlinkclicks ffc\n" ++
  "JOIN dimcampaign dc ON ffc.campaignkey = dc.campaignkey"

/-- Rendered `get_campaign_total_clicks` query without a date range. -/
def campaignClicksQND : String :=
  joinParts [campaignClicksBase,
    "WHERE " ++ joinConds ["dc.campaign_natural_key = $1"]] ++ ";"

/-- Rendered `get_campaign_total_clicks` query with both date bounds
(`param_idx` starts at 2, so the bounds are `$2` and `$3`). -/
def campaignClicksQD : String :=
  joinParts [campaignClicksBase,
    "JOIN dimdate dd ON ffc.datekey = dd.datekey",
    "WHERE " ++ joinConds ["dc.campaign_natural_key = $1",
      "dd.fulldate >= $2", "dd.fulldate <= $3"]] ++ ";"

/-- Query and parameters built by `get_campaign_total_clicks`,
campaigns.py 15-55: the date join and bounds are added only when both
`start_date` and `end_date` are truthy. -/
def buildCampaignTotalClicks (key : String) (s e : Option Value) :
    String × List Value :=
  match s, e with
  | some sv, some ev => (campaignClicksQD, [.s key, sv, ev])
  | _, _ => (campaignClicksQND, [.s key])

/-- The `get_campaign_total_clicks` endpoint through the emulated
executor, including the endpoint's default-for-null normalization. -/
def emulatedCampaignTotalClicks (b : Backend) (key : String)
    (s e : Option Value) : Value :=
  let qp := buildCampaignTotalClicks key s e
  kpiValue (emuFetchval b qp.1 qp.2) (.i 0)

/-- Relational semantics of the rendered no-date-range query: COUNT
over the join of `factlinkclicks` with `dimcampaign` on `campaignkey`,
restricted to `campaign_natural_key = $1` — one counted unit per
matching (fact, dimension) row pair. -/
def directCampaignTotalClicks (w : Warehouse) (key : String) : Nat :=
  (w.factlinkclicks.flatMap (fun f =>
    w.dimcampaign.filter (fun c =>
      decide (f.campaignkey = c.campaignkey) &&
      decide (c.campaign_natural_key = key)))).length

/-- Base part of `get_campaign_click_trends`, campaigns.py 247-257. -/
def campaignTrendsBase : String :=
  "SELECT\n    dd.fulldate AS \"date\",\n    COUNT(ffc.clickfactkey) AS value\n" ++
  "FROM\n    factlinkclicks ffc\n" ++
  "JOIN dimcampaign dc ON ffc.campaignkey = dc.campaignkey\n" ++
  "JOIN dimdate dd ON ffc.datekey = dd.datekey"

/-- Query and parameters built by `get_campaign_click_trends`,
campaigns.py 236-282: unlike the KPI endpoints, its `elif` ladder adds
a one-sided date bound when only one of the bounds is present. -/
def buildCampaignClickTrends (key : String) (s e : Option Value) :
    String × List Value :=
  let conds0 := ["dc.campaign_natural_key = $1"]
  let tail := "GROUP BY dd.fulldate ORDER BY dd.fulldate ASC;"
  match s, e with
  | some sv, some ev =>
    (joinParts [campaignTrendsBase,
      "WHERE " ++ joinConds (conds0 ++ ["dd.fulldate >= $2", "dd.fulldate <= $3"]),
      tail], [.s key, sv, ev])
  | some sv, none =>
    (joinParts [campaignTrendsBase,
      "WHERE " ++ joinConds (conds0 ++ ["dd.fulldate >= $2"]), tail],
     [.s key, sv])
  | none, some ev =>
    (joinParts [campaignTrendsBase,
      "WHERE " ++ joinConds (conds0 ++ ["dd.fulldate <= $2"]), tail],
     [.s key, ev])
  | none, none =>
    (joinParts [campaignTrendsBase, "WHERE " ++ joinConds conds0, tail],
     [.s key])

/-- Date conditions fragment of `get_campaign_page_ctr`, campaigns.py
156-162: rendered with `param_idx = 2`, and interpolated verbatim into
both CTEs (it names the `dd_clicks` alias in both). -/
def pageCtrDateConds (hasDates : Bool) : String :=
  if hasDates then
    "\nAND dd_clicks.fulldate >= $2\nAND dd_clicks.fulldate <= $3\n"
  else ""

/-- Rendered `get_campaign_page_ctr` query, campaigns.py 164-186. -/
def campaignPageCtrQuery (hasDates : Bool) : String :=
  "WITH Clicks AS (\n" ++
  "SELECT COUNT(ffc.clickfactkey) AS total_clicks\n" ++
  "FROM factlinkclicks ffc\n" ++
  "JOIN dimdate dd_clicks ON ffc.datekey = dd_clicks.datekey\n" ++
  "JOIN dimcampaign dc_clicks ON ffc.campaignkey = dc_clicks.campaignkey\n" ++
  "WHERE dc_clicks.campaign_natural_key = $1" ++
  pageCtrDateConds hasDates ++
  "\n),\nPageVisits AS (\n" ++
  "SELECT COUNT(fpv.pagevisitfactkey) AS total_page_visits\n" ++
  "FROM factpagevisits fpv\n" ++
  "JOIN dimdate dd_visits ON fpv.datekey = dd_visits.datekey\n" ++
  "JOIN dimcampaign dc_visits ON fpv.campaignkey = dc_visits.campaignkey\n" ++
  "WHERE dc_visits.campaign_natural_key = $1" ++
  pageCtrDateConds hasDates ++
  "\n)\nSELECT\nCOALESCE(\n" ++
  "(SELECT total_clicks FROM Clicks)::FLOAT * 100.0 / " ++
  "NULLIF((SELECT total_page_visits FROM PageVisits), 0),\n" ++
  "0.0\n) AS page_ctr;"

/-- Parameters built by `get_campaign_page_ctr`. -/
def campaignPageCtrParams (key : String) (s e : Option Value) :
    List Value :=
  match s, e with
  | some sv, some ev => [.s key, sv, ev]
  | _, _ => [.s key]

/-- The `get_campaign_page_ctr` endpoint through the emulated
executor; the endpoint default for a null result is `0.0`. -/
def emulatedCampaignPageCtr (b : Backend) (key : String)
    (s e : Option Value) : Value :=
  kpiValue
    (emuFetchval b (campaignPageCtrQuery (s.isSome && e.isSome))
      (campaignPageCtrParams key s e))
    (.f 0)

/-! ## Parameter positions referenced by the two RATIO statements -/

/-- Positions referenced by the rendered `get_campaign_page_ctr`
statement, in order of appearance: `$1` plus the date bounds in the
Clicks CTE, then the same fragment again in the PageVisits CTE. -/
def campaignPageCtrRefs (hasDates : Bool) : List Nat :=
  let dateRefs := if hasDates then [2, 3] else []
  ([1] ++ dateRefs) ++ ([1] ++ dateRefs)

/-- Positions referenced by the rendered `get_link_conversion_rate`
statement (links.py 107-182) and its bound-parameter count, mirroring
the source's `param_idx` bookkeeping: the Clicks CTE numbers filters
1.., and the ATCClicks CTE recomputes positions as
`param_idx - (2 if dates else 0)` for the link type and
`param_idx - 1`, `param_idx` for the date bounds. -/
def linkConversionRateRefs (hasLinkType hasDates : Bool) :
    List Nat × Nat :=
  let idx1 := if hasLinkType then 2 else 1
  let idx2 := if hasDates then idx1 + 2 else idx1
  let clicksRefs := (if hasLinkType then [1] else []) ++
    (if hasDates then [idx1, idx1 + 1] else [])
  let atcRefs :=
    (if hasLinkType then [idx2 - (if hasDates then 2 else 0)] else []) ++
    (if hasDates then [idx2 - 1, idx2] else [])
  (clicksRefs ++ atcRefs,
   (if hasLinkType then 1 else 0) + (if hasDates then 2 else 0))

/-! ## Ratio expression semantics (direct executor)

SQL semantics of the final SELECT of the two RATIO queries:
`COALESCE(numerator::FLOAT * 100.0 / NULLIF(denominator, 0), 0.0)`. -/

/-- SQL NULLIF on integers. -/
def sqlNullifInt (a b : Int) : Option Int :=
  if a = b then none else some a

/-- SQL COALESCE with a numeric literal default. -/
def sqlCoalesce (x : Option Rat) (dflt : Rat) : Rat := x.getD dflt

/-- SQL division with a nullable divisor: NULL divisor gives NULL. -/
def sqlDivByNullable (n : Rat) (dN : Option Int) : Option Rat :=
  dN.map (fun dv => n / (dv : Rat))

/-- Final SELECT of `get_campaign_page_ctr` (campaigns.py 181-185) and
`get_page_ctr` (overview.py 160-164). -/
def pageCtrExpr (total_clicks total_page_visits : Int) : Rat :=
  sqlCoalesce
    (sqlDivByNullable ((total_clicks : Rat) * 100)
      (sqlNullifInt total_page_visits 0)) 0

/-- Final SELECT of `get_link_conversion_rate` (links.py 174-180). -/
def conversionRateExpr (total_atc_clicks total_clicks : Int) : Rat :=
  sqlCoalesce
    (sqlDivByNullable ((total_atc_clicks : Rat) * 100)
      (sqlNullifInt total_clicks 0)) 0

/-! ## Pagination (campaigns.py 291-393, links.py 268-377) -/

/-- Endpoint offset computation `offset = (page - 1) * size`. -/
def paginationOffset (page size : Nat) : Nat := (page - 1) * size

/-- Semantics of `LIMIT $n OFFSET $m` on the ordered result rows. -/
def sqlLimitOffset {α : Type} (rows : List α) (limit offsetArg : Nat) :
    List α :=
  (rows.drop offsetArg).take limit

/-- Endpoint computation `math.ceil(total_items / size) if size > 0
else 0`. -/
def totalPagesOf (totalItems size : Nat) : Nat :=
  if 0 < size then (totalItems + size - 1) / size else 0

/-! ## Direct wrapper and the overview retry ladder -/

/-- DirectPgConnection.fetchval (database.py 145-161): on success the
scalar comes back, on failure the exception is logged and re-raised —
there is no internal retry and no default substitution here. -/
def directFetchval (ok : Bool) (v : Value) : Except String Value :=
  if ok then .ok v else .error "Error executing query"

/-- The `get_total_clicks` overview endpoint (overview.py 14-88): a
test query, then the direct-datekey query, then the dimdate-join
query, then a constant fallback, each tried when the previous one
raised; every successful rung is normalized with default 0. -/
def overviewTotalClicks (testResult : Value)
    (directRes origRes : Except Unit Value) (fallbackRes : Value) :
    Value :=
  if testResult = .null then .i 0
  else
    match directRes with
    | .ok r => kpiValue r (.i 0)
    | .error _ =>
      match origRes with
      | .ok r => kpiValue r (.i 0)
      | .error _ => kpiValue fallbackRes (.i 0)

/-! ## Row normalization for trend responses -/

/-- One TrendDataItem from a raw row, campaigns.py 286: the date field
is read directly, the value through `_get_value`. -/
def trendItemOf (rec : Row) : Value × Value :=
  ((lookupField rec "date").getD .null, getValue rec "value" (.i 0))

/-- The list comprehension building `data_items` from `records`. -/
def normalizeTrendRows (records : List Row) : List (Value × Value) :=
  records.map trendItemOf

/-! ## Derived characterization of the emulated campaign count

What `emulateClickCount` computes on the campaign-filtered count
queries, once the (fixed) query-text dispatch is discharged: the first
surrogate key whose dimension row matches the natural key — if any —
becomes an equality filter, and the truthy converted date bounds are
appended.  The shape lemmas below prove the full pipeline equal to
this. -/

/-- Emulated count for the campaign total-clicks plan with optional
integer date-key bounds. -/
def campaignEmuCount (w : Warehouse) (key : String) (si ei : Option Nat) :
    Nat :=
  let base : List FactFilter :=
    match w.dimcampaign.filter
        (fun c => Value.eqStr (.s key) c.campaign_natural_key) with
    | c :: _ => [.campaignEq c.campaignkey]
    | [] => []
  (w.factlinkclicks.filter
    (fun f => (applyDateFilters base si ei).all (factMatches f))).length

/-! ## Concrete scenario data

The spec's scenario: a fact table with 10 synthetic rows across 3
campaigns (4 rows for campaign 1 = "A", 3 for campaign 2 = "B", 3 for
campaign 3 = "C"). -/

/-- Ten fact rows across three campaigns. -/
def facts10 : List FactClick :=
  [⟨1, 1, 1, 20240101, false, 2⟩, ⟨2, 1, 1, 20240102, true, 3⟩,
   ⟨3, 1, 2, 20240103, false, 1⟩, ⟨4, 1, 2, 20240104, false, 5⟩,
   ⟨5, 2, 3, 20240105, true, 2⟩, ⟨6, 2, 3, 20240106, false, 4⟩,
   ⟨7, 2, 4, 20240107, false, 1⟩, ⟨8, 3, 5, 20240108, false, 2⟩,
   ⟨9, 3, 5, 20240109, true, 3⟩, ⟨10, 3, 6, 20240110, false, 1⟩]

/-- Scenario warehouse. -/
def wDemo : Warehouse :=
  ⟨facts10, [⟨1, "A"⟩, ⟨2, "B"⟩, ⟨3, "C"⟩], [⟨1, "banner"⟩], [⟨1, "p1"⟩], []⟩

/-- Scenario backend with every PostgREST call succeeding. -/
def bDemo : Backend := ⟨wDemo, true, true, true, true⟩

/-- Warehouse for the ratio scenario: campaign "A" has four clicks and
the page-visit fact table is empty (denominator zero). -/
def wCtr : Warehouse := ⟨facts10, [⟨1, "A"⟩], [], [], []⟩

/-! ## Paginated link-performance endpoint
(`get_campaign_link_performance`, campaigns.py 291-393)

In this endpoint's `base_query_parts` the `JOIN` keyword and the table
name sit on separate lines, so the upper-cased query never contains
the substrings "JOIN DIMLINK" or "JOIN DIMCAMPAIGN" the emulator
dispatches on. -/

/-- Base FROM/JOIN part, campaigns.py 306-315, line breaks kept. -/
def campaignLinkPerfBase : String :=
  "FROM\n    factlinkclicks ffc\n" ++
  "JOIN\n    dimlink dl ON ffc.linkkey = dl.linkkey\n" ++
  "JOIN\n    dimcampaign dc ON ffc.campaignkey = dc.campaignkey"

/-- Rendered count query of the link-performance table (no dates). -/
def campaignLinkPerfCountQ : String :=
  "SELECT COUNT(DISTINCT dl.linkkey)\n" ++ campaignLinkPerfBase ++
  "\nWHERE dc.campaign_natural_key = $1;"

/-- Rendered data query of the link-performance table (no dates):
`data_query_param_idx = 2`, so the page bounds are `$2` and `$3`. -/
def campaignLinkPerfDataQ : String :=
  "SELECT\n    dl.link_name,\n    dl.short_link_url,\n" ++
  "    dl.link_type_name AS link_type,\n" ++
  "    COUNT(ffc.clickfactkey) AS total_clicks,\n" ++
  "    SUM(CASE WHEN ffc.is_atc_click = TRUE THEN 1 ELSE 0 END) AS atc_clicks,\n" ++
  "    SUM(ffc.click_value) AS total_link_value\n" ++
  campaignLinkPerfBase ++
  "\nWHERE dc.campaign_natural_key = $1\nGROUP BY\n" ++
  "    dl.linkkey, dl.link_name, dl.short_link_url, dl.link_type_name\n" ++
  "ORDER BY\n    total_clicks DESC\nLIMIT $2 OFFSET $3;"

/-- One item of the link-performance response (campaigns.py 370-379):
`link_name`, `short_link_url` and `link_type` are read with direct
subscripts — a missing column is a Python `KeyError`, modelled as
`none` — while the numeric columns go through `_get_value`. -/
def linkPerfItemOf (rec : Row) :
    Option (Value × Value × Value × Value × Value × Value) :=
  match lookupField rec "link_name", lookupField rec "short_link_url",
      lookupField rec "link_type" with
  | some a, some b, some c =>
    some (a, b, c, getValue rec "total_clicks" (.i 0),
      getValue rec "atc_clicks" (.i 0),
      getValue rec "total_link_value" (.f 0))
  | _, _, _ => none

/-- A list comprehension that can raise: `none` when any element
raises. -/
def mapOrRaise {α β : Type} (f : α → Option β) : List α → Option (List β)
  | [] => some []
  | a :: rest =>
    match f a, mapOrRaise f rest with
    | some x, some xs => some (x :: xs)
    | _, _ => none

/-- The `get_campaign_link_performance` endpoint through the emulated
executor, without a date range: count query, `total_items is None`
default, data fetch guarded by `total_items > 0`, item construction,
and `total_pages`.  `Except.error ()` models the endpoint's `except`
clause turning any failure (such as the `KeyError` above) into an
HTTP 500 response.  The fetched count value is an integer or null
here, hence the collapsed `total_items` match. -/
def emulatedCampaignLinkPerformance (b : Backend) (key : String)
    (page size : Nat) :
    Except Unit
      (Int × List (Value × Value × Value × Value × Value × Value) × Nat) :=
  let offsetArg := paginationOffset page size
  let total_items : Int :=
    match emuFetchval b campaignLinkPerfCountQ [.s key] with
    | .i n => n
    | _ => 0
  if 0 < total_items then
    let records := executeSql b campaignLinkPerfDataQ
      [.s key, .i size, .i offsetArg]
    match mapOrRaise linkPerfItemOf records with
    | some items => .ok (total_items, items, totalPagesOf total_items.toNat size)
    | none => .error ()
  else .ok (total_items, [], totalPagesOf total_items.toNat size)

/-- Warehouse with 25 links, each carrying one non-ATC click for
campaign "A": 25 matching table rows for the link-performance
request. -/
def w25 : Warehouse :=
  ⟨(List.range 25).map (fun i => ⟨i + 1, 1, i + 1, 20240101, false, 1⟩),
   [⟨1, "A"⟩],
   (List.range 25).map (fun i => ⟨i + 1, "banner"⟩),
   [], []⟩

/-! # Lemmas

Query-text dispatch facts for the two rendered campaign total-clicks
statements (closed computations), then shape lemmas reducing the full
emulated pipeline to `campaignEmuCount`. -/

theorem qnd_test : containsSub campaignClicksQND "123 AS test_value" = false := by decide

theorem qnd_count : containsSub (pyUpper campaignClicksQND) "COUNT" = true := by decide

theorem qnd_flc : containsSub (pyUpper campaignClicksQND) "FACTLINKCLICKS" = true := by decide

theorem qnd_atc : containsSub (pyUpper campaignClicksQND) "IS_ATC_CLICK = TRUE" = false := by decide

theorem qnd_dcamp : containsSub (pyUpper campaignClicksQND) "JOIN DIMCAMPAIGN" = true := by decide

theorem qnd_cnk : containsSub (pyUpper campaignClicksQND) "CAMPAIGN_NATURAL_KEY" = true := by decide

theorem qnd_dlink : containsSub (pyUpper campaignClicksQND) "JOIN DIMLINK" = false := by decide

theorem qnd_ltn : containsSub (pyUpper campaignClicksQND) "LINK_TYPE_NAME" = false := by decide

theorem qnd_tatc : containsSub (pyUpper campaignClicksQND) "TOTAL_ATC_CLICKS" = false := by decide

theorem qd_test : containsSub campaignClicksQD "123 AS test_value" = false := by decide

theorem qd_count : containsSub (pyUpper campaignClicksQD) "COUNT" = true := by decide

theorem qd_flc : containsSub (pyUpper campaignClicksQD) "FACTLINKCLICKS" = true := by decide

theorem qd_atc : containsSub (pyUpper campaignClicksQD) "IS_ATC_CLICK = TRUE" = false := by decide

theorem qd_dcamp : containsSub (pyUpper campaignClicksQD) "JOIN DIMCAMPAIGN" = true := by decide

theorem qd_cnk : containsSub (pyUpper campaignClicksQD) "CAMPAIGN_NATURAL_KEY" = true := by decide

theorem qd_dlink : containsSub (pyUpper campaignClicksQD) "JOIN DIMLINK" = false := by decide

theorem qd_ltn : containsSub (pyUpper campaignClicksQD) "LINK_TYPE_NAME" = false := by decide

theorem qd_tatc : containsSub (pyUpper campaignClicksQD) "TOTAL_ATC_CLICKS" = false := by decide

theorem dpq_test : containsSub campaignLinkPerfDataQ "123 AS test_value" = false := by decide

theorem dpq_count : containsSub (pyUpper campaignLinkPerfDataQ) "COUNT" = true := by decide

theorem dpq_flc : containsSub (pyUpper campaignLinkPerfDataQ) "FACTLINKCLICKS" = true := by decide

theorem dpq_atc : containsSub (pyUpper campaignLinkPerfDataQ) "IS_ATC_CLICK = TRUE" = true := by decide

theorem dpq_dcamp : containsSub (pyUpper campaignLinkPerfDataQ) "JOIN DIMCAMPAIGN" = false := by decide

theorem dpq_cnk : containsSub (pyUpper campaignLinkPerfDataQ) "CAMPAIGN_NATURAL_KEY" = true := by decide

theorem dpq_dlink : containsSub (pyUpper campaignLinkPerfDataQ) "JOIN DIMLINK" = false := by decide

theorem dpq_ltn : containsSub (pyUpper campaignLinkPerfDataQ) "LINK_TYPE_NAME" = true := by decide

theorem dpq_tatc : containsSub (pyUpper campaignLinkPerfDataQ) "TOTAL_ATC_CLICKS" = false := by decide

/-- Truthiness of a nonempty string key. -/
theorem truthy_of_ne (key : String) (hk : key ≠ "") :
    (Value.s key).truthy = true := by
  simp [Value.truthy, hk]

/-- Shape of the emulated campaign total-clicks execution without a
date range, for a truthy key and a succeeding campaign lookup. -/
theorem campaignClicksShapeND (w : Warehouse) (lOk pOk : Bool)
    (key : String) (hk : key ≠ "") :
    emulatedCampaignTotalClicks ⟨w, true, lOk, pOk, true⟩ key none none =
      Value.i (campaignEmuCount w key none none) := by
  have ht := truthy_of_ne key hk
  simp only [emulatedCampaignTotalClicks, buildCampaignTotalClicks, emuFetchval,
    executeSql, emulateClickCount, qnd_test, qnd_count, qnd_flc, qnd_atc,
    qnd_dcamp, qnd_cnk, qnd_dlink, qnd_ltn, qnd_tatc, ht, campaignEmuCount]
  simp [argAt, applyDateFilters, fetchval, kpiValue, Value.eqStr, ht]

/-- Shape of the emulated campaign total-clicks execution with both
date bounds present: the bounds are converted and applied only when
the conversion is truthy. -/
theorem campaignClicksShapeD (w : Warehouse) (lOk pOk : Bool)
    (key : String) (v1 v2 : Value) (hk : key ≠ "") :
    emulatedCampaignTotalClicks ⟨w, true, lOk, pOk, true⟩ key
        (some v1) (some v2) =
      Value.i (campaignEmuCount w key (convert_date_to_int v1)
        (convert_date_to_int v2)) := by
  have ht := truthy_of_ne key hk
  simp only [emulatedCampaignTotalClicks, buildCampaignTotalClicks, emuFetchval,
    executeSql, emulateClickCount, qd_test, qd_count, qd_flc, qd_atc,
    qd_dcamp, qd_cnk, qd_dlink, qd_ltn, qd_tatc, ht, campaignEmuCount]
  simp [argAt, fetchval, kpiValue, Value.eqStr, ht]

/-- Shape of the emulated campaign total-clicks execution when the
campaign lookup call fails: the filter is skipped, the count runs
unfiltered, and no error escapes. -/
theorem campaignClicksShapeFail (w : Warehouse) (lOk pOk : Bool)
    (key : String) :
    emulatedCampaignTotalClicks ⟨w, false, lOk, pOk, true⟩ key none none =
      Value.i w.factlinkclicks.length := by
  simp only [emulatedCampaignTotalClicks, buildCampaignTotalClicks, emuFetchval,
    executeSql, emulateClickCount, qnd_test, qnd_count, qnd_flc, qnd_atc,
    qnd_dcamp, qnd_cnk, qnd_dlink, qnd_ltn, qnd_tatc]
  simp [argAt, applyDateFilters, fetchval, kpiValue, ite_self]

/-- Filtering by a conjunction equals filtering in two passes. -/
theorem filter_and_split {α : Type} (l : List α) (p q : α → Bool) :
    l.filter (fun a => p a && q a) = (l.filter q).filter p :=
  (List.filter_filter q l).symm

/-- The relational COUNT over the campaign join, when exactly one
dimension row carries the natural key, counts exactly the fact rows
with that row's surrogate key. -/
theorem directCountOfUniqueMatch (facts : List FactClick)
    (dims : List DimCampaign) (key : String) (c : DimCampaign)
    (hu : dims.filter (fun x => decide (key = x.campaign_natural_key)) = [c]) :
    (facts.flatMap (fun f => dims.filter (fun x =>
        decide (f.campaignkey = x.campaignkey) &&
        decide (x.campaign_natural_key = key)))).length =
      (facts.filter (fun f => decide (f.campaignkey = c.campaignkey))).length := by
  have hdim : ∀ f : FactClick,
      dims.filter (fun x => decide (f.campaignkey = x.campaignkey) &&
        decide (x.campaign_natural_key = key)) =
      if decide (f.campaignkey = c.campaignkey) then [c] else [] := by
    intro f
    rw [filter_and_split]
    have hswap : dims.filter (fun x => decide (x.campaign_natural_key = key)) =
        dims.filter (fun x => decide (key = x.campaign_natural_key)) := by
      apply List.filter_congr
      intro x _
      simp [eq_comm]
    rw [hswap, hu]
    cases hp : decide (f.campaignkey = c.campaignkey) <;>
      simp [List.filter_cons, hp]
  induction facts with
  | nil => rfl
  | cons f fs ih =>
    rw [List.flatMap_cons, List.length_append, ih, hdim f, List.filter_cons]
    cases hp : decide (f.campaignkey = c.campaignkey) <;>
      simp [hp, Nat.add_comm]

/-! # Claims -/

/-- C1 (counterexample): the Direct and Emulated executors do NOT
return the same result for every supported plan shape and warehouse
state.  On the 10-row / 3-campaign warehouse, filtering the campaign
count by a natural key that matches no dimension row, the emulator's
empty lookup silently drops the campaign filter and counts all 10
rows, while the relational join counts 0. -/
theorem c1_counterexample :
    emulatedCampaignTotalClicks bDemo "D" none none ≠
      Value.i (directCampaignTotalClicks wDemo "D") := by decide

/-- C1 (amended): when the natural key is nonempty and matches exactly
one `dimcampaign` row, the Emulated executor's campaign total-clicks
result (no date range) equals the Direct executor's relational COUNT
over the join. -/
theorem c1_executors_agree_on_unique_key_match (w : Warehouse)
    (lOk pOk : Bool) (key : String) (c : DimCampaign) (hk : key ≠ "")
    (hu : w.dimcampaign.filter
      (fun x => decide (key = x.campaign_natural_key)) = [c]) :
    emulatedCampaignTotalClicks ⟨w, true, lOk, pOk, true⟩ key none none =
      Value.i (directCampaignTotalClicks w key) := by
  rw [campaignClicksShapeND w lOk pOk key hk]
  congr 1
  have hfe : w.dimcampaign.filter
      (fun x => Value.eqStr (.s key) x.campaign_natural_key) =
      w.dimcampaign.filter (fun x => decide (key = x.campaign_natural_key)) := by
    apply List.filter_congr
    intro x _
    simp [Value.eqStr]
  unfold campaignEmuCount directCampaignTotalClicks
  rw [directCountOfUniqueMatch w.factlinkclicks w.dimcampaign key c hu,
    hfe, hu]
  simp [applyDateFilters, factMatches]

/-- C1 (witness): the spec's scenario — 10 fact rows across 3
campaigns, filtering to campaign "A" — where both executors agree. -/
theorem c1_witness :
    emulatedCampaignTotalClicks ⟨wDemo, true, true, true, true⟩ "A"
        none none = Value.i (directCampaignTotalClicks wDemo "A") :=
  c1_executors_agree_on_unique_key_match wDemo true true "A" ⟨1, "A"⟩
    (by decide) (by decide)

/-- C2 (counterexample): in the rendered page-CTR RATIO statement with
a date range, parameter position 2 is referenced twice (once per CTE),
not exactly once, and the start-date literal is bound at exactly one
parameter position, not two. -/
theorem c2_counterexample :
    (campaignPageCtrRefs true).count 2 = 2 ∧
      (campaignPageCtrParams "c" (some (.d 2024 1 1))
        (some (.d 2024 1 31))).count (.d 2024 1 1) = 1 := by
  constructor
  · decide
  · decide

/-- C2 (amended): the parameter list binds positions 1..N contiguously
with each value bound once; the page-CTR statement references each of
those positions once per sub-aggregate (so twice in total), reusing
one binding for the date literals; the conversion-rate statement's
second sub-aggregate references shifted positions — whenever the
link-type filter is present it references a position past the bound
parameter list (position 2 of 1, or position 4 of 3), and with dates
alone it reuses positions 2..3 while referencing position 3 of 2. -/
theorem c2_param_positions (key : String) (sv ev : Value) :
    campaignPageCtrParams key (some sv) (some ev) = [.s key, sv, ev] ∧
    campaignPageCtrParams key none none = [.s key] ∧
    campaignPageCtrRefs true = [1, 2, 3, 1, 2, 3] ∧
    campaignPageCtrRefs false = [1, 1] ∧
    linkConversionRateRefs true true = ([1, 2, 3, 2, 3, 4], 3) ∧
    linkConversionRateRefs true false = ([1, 2], 1) ∧
    linkConversionRateRefs false true = ([1, 2, 2, 3], 2) ∧
    linkConversionRateRefs false false = ([], 0) :=
  ⟨rfl, rfl, rfl, rfl, rfl, rfl, rfl, rfl⟩

/-- C3 (counterexample): the emulated executor, given a grouped
aggregation over a non-empty warehouse, returns the empty `Rows`
result — it does not raise any `UnsupportedPlanError` (no such error
exists in the code; every branch of `_execute_sql` returns a list). -/
theorem c3_counterexample :
    executeSql bDemo
      "SELECT linkkey, SUM(click_value) FROM factlinkclicks GROUP BY linkkey"
      [] = [] := by decide

/-- C3 (amended): any query that reaches the `GROUP BY` branch of the
emulated executor (not a test query, not matched by either COUNT
pattern) yields the empty rows list, with no error raised. -/
theorem c3_groupby_returns_empty (b : Backend) (q : String)
    (args : List Value) (hm : b.mainOk = true)
    (h1 : containsSub q "123 AS test_value" = false)
    (h2 : (containsSub (pyUpper q) "COUNT" &&
      containsSub (pyUpper q) "FACTLINKCLICKS") = false)
    (h3 : (containsSub (pyUpper q) "COUNT" &&
      containsSub (pyUpper q) "FACTPAGEVISITS") = false)
    (h4 : containsSub (pyUpper q) "GROUP BY" = true) :
    executeSql b q args = [] := by
  simp only [executeSql, hm, h1, h2, h3, h4]
  simp

/-- C3 (witness): a SUM-with-GROUP-BY query over the page-visit fact
table reaches the grouping branch and yields the empty rows list. -/
theorem c3_witness :
    executeSql bDemo
      "SELECT utm_source, SUM(click_value) FROM factpagevisits GROUP BY utm_source"
      [] = [] :=
  c3_groupby_returns_empty bDemo _ [] (by decide) (by decide) (by decide)
    (by decide) (by decide)

/-- C4 (counterexample): a natural-key filter whose dimension lookup
matches zero rows does NOT short-circuit to an empty (zero) result:
the filter is dropped and the full unfiltered count (10) is
returned. -/
theorem c4_counterexample :
    emulatedCampaignTotalClicks bDemo "D" none none = Value.i 10 ∧
      Value.i 10 ≠ Value.i 0 := by
  constructor
  · decide
  · decide

/-- C4 (amended): in the emulated executor, the dimension table is
queried first and (only) the first matching surrogate key becomes an
equality filter on the fact table; when the lookup matches zero rows,
or when the lookup call itself fails, the filter is silently skipped
and the fact query runs unfiltered (returning the full count, not an
empty result, and with no flag beyond a log line). -/
theorem c4_lookup_degradation (w : Warehouse) (lOk pOk : Bool)
    (key : String) (hk : key ≠ "") :
    (w.dimcampaign.filter
        (fun x => decide (key = x.campaign_natural_key)) = [] →
      emulatedCampaignTotalClicks ⟨w, true, lOk, pOk, true⟩ key none none =
        Value.i w.factlinkclicks.length) ∧
    (emulatedCampaignTotalClicks ⟨w, false, lOk, pOk, true⟩ key none none =
      Value.i w.factlinkclicks.length) ∧
    (∀ (c : DimCampaign) (rest : List DimCampaign),
      w.dimcampaign.filter
        (fun x => decide (key = x.campaign_natural_key)) = c :: rest →
      emulatedCampaignTotalClicks ⟨w, true, lOk, pOk, true⟩ key none none =
        Value.i (w.factlinkclicks.filter
          (fun f => decide (f.campaignkey = c.campaignkey))).length) := by
  have hfe : w.dimcampaign.filter
      (fun x => Value.eqStr (.s key) x.campaign_natural_key) =
      w.dimcampaign.filter (fun x => decide (key = x.campaign_natural_key)) := by
    apply List.filter_congr
    intro x _
    simp [Value.eqStr]
  refine ⟨?_, campaignClicksShapeFail w lOk pOk key, ?_⟩
  · intro h0
    rw [campaignClicksShapeND w lOk pOk key hk]
    congr 1
    unfold campaignEmuCount
    rw [hfe, h0]
    simp [applyDateFilters]
  · intro c rest h1
    rw [campaignClicksShapeND w lOk pOk key hk]
    congr 1
    unfold campaignEmuCount
    rw [hfe, h1]
    simp [applyDateFilters, factMatches]

/-- C4 (witness): on the scenario warehouse, a zero-match key and a
failing lookup both return the unfiltered count, and a matching key
applies the first surrogate key. -/
theorem c4_witness :
    (emulatedCampaignTotalClicks ⟨wDemo, true, true, true, true⟩ "D"
        none none = Value.i wDemo.factlinkclicks.length) ∧
    (emulatedCampaignTotalClicks ⟨wDemo, false, true, true, true⟩ "D"
        none none = Value.i wDemo.factlinkclicks.length) ∧
    (emulatedCampaignTotalClicks ⟨wDemo, true, true, true, true⟩ "A"
        none none = Value.i (wDemo.factlinkclicks.filter
          (fun f => decide (f.campaignkey = 1))).length) :=
  ⟨(c4_lookup_degradation wDemo true true "D" (by decide)).1 (by decide),
   (c4_lookup_degradation wDemo true true "D" (by decide)).2.1,
   (c4_lookup_degradation wDemo true true "A" (by decide)).2.2 ⟨1, "A"⟩ []
     (by decide)⟩

/-- C5 (counterexample): an execution failure in the emulated executor
does not surface as an error at all: the swallowed failure becomes the
empty result, which the endpoint converts to the default numeric value
0 (the true count of campaign "A" is 4). -/
theorem c5_counterexample :
    emulatedCampaignTotalClicks ⟨wDemo, true, true, true, false⟩ "A"
        none none = Value.i 0 ∧
      directCampaignTotalClicks wDemo "A" = 4 := by
  constructor
  · decide
  · decide

/-- C5 (amended): the direct wrapper re-raises execution errors
without retrying (endpoints turn them into HTTP 500 responses; no
`BackendQueryError` type exists); the emulated executor catches every
execution failure and returns the empty result, which callers
normalize into the default numeric value; and the overview
total-clicks endpoint internally retries alternative queries, landing
on a constant fallback normalized with default 0. -/
theorem c5_error_handling (v : Value) (w : Warehouse)
    (cOk lnOk pOk : Bool) (q : String) (args : List Value) :
    directFetchval false v = Except.error "Error executing query" ∧
    executeSql ⟨w, cOk, lnOk, pOk, false⟩ q args = [] ∧
    overviewTotalClicks (.i 123) (.error ()) (.error ()) (.i 0) =
      Value.i 0 :=
  ⟨rfl, rfl, rfl⟩

/-- C6 (counterexample): with only `start_date` supplied, the built
campaign total-clicks query contains no date predicate at all — the
partial range is silently dropped (and the date value is not even
bound as a parameter). -/
theorem c6_counterexample :
    containsSub (buildCampaignTotalClicks "c" (some (.d 2024 1 1)) none).1
        "dd.fulldate" = false ∧
      (buildCampaignTotalClicks "c" (some (.d 2024 1 1)) none).2 =
        [.s "c"] := by
  constructor
  · decide
  · decide

/-- C6 (amended): the campaign total-clicks builder emits its date
bounds iff BOTH bounds are present (a partial range yields no date
predicate), while the campaign click-trends builder emits one-sided
bounds: its lower bound appears iff `start_date` is present and its
upper bound iff `end_date` is present. -/
theorem c6_date_bounds_presence (key : String) (s e : Option Value) :
    (containsSub (buildCampaignTotalClicks key s e).1 "dd.fulldate >=" =
      (s.isSome && e.isSome)) ∧
    (containsSub (buildCampaignTotalClicks key s e).1 "dd.fulldate <=" =
      (s.isSome && e.isSome)) ∧
    (containsSub (buildCampaignClickTrends key s e).1 "dd.fulldate >=" =
      s.isSome) ∧
    (containsSub (buildCampaignClickTrends key s e).1 "dd.fulldate <=" =
      e.isSome) := by
  rcases s with _ | sv <;> rcases e with _ | ev <;>
    simp only [buildCampaignTotalClicks, buildCampaignClickTrends,
      Option.isSome] <;>
    exact ⟨by decide, by decide, by decide, by decide⟩

/-- C7 (counterexample): a page-CTR RATIO execution through the
emulated executor, with denominator (page visits) equal to 0, returns
the click count 4 — not the claimed `0.0` — because the CTE query text
matches the emulator's plain factlinkclicks-count pattern. -/
theorem c7_counterexample :
    emulatedCampaignPageCtr ⟨wCtr, true, true, true, true⟩ "A" none none =
        Value.i 4 ∧
      wCtr.factpagevisits.length = 0 ∧ Value.i 4 ≠ Value.f 0 := by
  refine ⟨?_, ?_, ?_⟩
  · decide
  · decide
  · decide

/-- C7 (amended): the rendered ratio SQL itself — COALESCE of the
scaled numerator divided by NULLIF(denominator, 0) — yields exactly 0
for a zero denominator and never divides by zero (the direct executor
therefore returns 0.0 there); with a nonzero denominator it yields the
scaled quotient.  (Through the emulated executor the ratio query is
misdetected as a plain count; see the counterexample.) -/
theorem c7_ratio_zero_denominator (clicks visits atc : Int) :
    pageCtrExpr clicks 0 = 0 ∧ conversionRateExpr atc 0 = 0 ∧
    (visits ≠ 0 →
      pageCtrExpr clicks visits = (clicks : Rat) * 100 / (visits : Rat)) := by
  refine ⟨rfl, rfl, ?_⟩
  intro h
  simp [pageCtrExpr, sqlCoalesce, sqlDivByNullable, sqlNullifInt, h]

/-- C7 (witness): concrete ratio evaluations. -/
theorem c7_witness :
    pageCtrExpr 5 0 = 0 ∧ conversionRateExpr 3 0 = 0 ∧
      pageCtrExpr 5 2 = (5 : Rat) * 100 / (2 : Rat) :=
  ⟨(c7_ratio_zero_denominator 5 2 3).1,
   (c7_ratio_zero_denominator 5 2 3).2.1,
   (c7_ratio_zero_denominator 5 2 3).2.2 (by norm_num)⟩

/-- C8: scalar normalization returns the raw value when it is present
and non-null and the declared default when it is null/absent (so a
caller never receives null when the default is non-null), and row
normalization is an index-preserving map — the i-th output item comes
from the i-th input row, so ordering established by the query's ORDER
BY clause is untouched. -/
theorem c8_normalization (raw dflt : Value) (rec : Row) (k : String)
    (records : List Row) (i : Nat) :
    (raw ≠ .null → kpiValue raw dflt = raw) ∧
    (kpiValue .null dflt = dflt) ∧
    (dflt ≠ .null → getValue rec k dflt ≠ .null) ∧
    ((normalizeTrendRows records)[i]? = records[i]?.map trendItemOf) := by
  refine ⟨?_, ?_, ?_, ?_⟩
  · intro h
    simp [kpiValue, h]
  · simp [kpiValue]
  · intro hd
    unfold getValue
    split
    · exact hd
    · cases hl : lookupField rec k with
      | none => exact hd
      | some v =>
        show (if v = Value.null then dflt else v) ≠ Value.null
        by_cases hv : v = Value.null
        · rw [if_pos hv]
          exact hd
        · rw [if_neg hv]
          exact hv
  · simp [normalizeTrendRows]

/-- C8 (witness): concrete normalizations. -/
theorem c8_witness :
    (kpiValue (.i 7) (.i 0) = .i 7) ∧
    (kpiValue .null (.f 0) = .f 0) ∧
    (getValue [("value", .null)] "value" (.i 0) ≠ .null) ∧
    ((normalizeTrendRows [[("date", .s "2024-01-01"), ("value", .i 3)]])[0]? =
      some (.s "2024-01-01", .i 3)) :=
  ⟨(c8_normalization (.i 7) (.i 0) [] "" [] 0).1 (by decide),
   (c8_normalization .null (.f 0) [] "" [] 0).2.1,
   (c8_normalization .null (.i 0) [("value", .null)] "value" [] 0).2.2.1
     (by decide),
   by
     rw [(c8_normalization .null (.i 0) [] ""
       [[("date", .s "2024-01-01"), ("value", .i 3)]] 0).2.2.2]
     decide⟩

/-- C9 (counterexample): a paginated link-performance request (page 2,
size 20) over a warehouse with 25 matching link rows does NOT return 5
rows through the emulated executor: its data query is misrouted to the
fact-count branch, the single `total_clicks` row lacks the link
columns, and the endpoint's comprehension raises, producing an
HTTP 500 — no rows at all. -/
theorem c9_counterexample :
    emulatedCampaignLinkPerformance ⟨w25, true, true, true, true⟩ "A" 2 20 =
        Except.error () ∧
      w25.dimlink.length = 25 := by
  constructor
  · rfl
  · decide

/-- C9 (amended): the endpoints' pagination arithmetic is correct —
`offset = (page - 1) * size`, `LIMIT size OFFSET offset` yields
exactly 5 of 25 ordered rows on page 2 with size 20 under the direct
executor's SQL semantics, and `total_pages` from 25 items of size 20
is 2 — but through the emulated executor the paginated data query
always collapses to a single `total_clicks` row (for any warehouse,
key and page bounds), on which the endpoint's item construction
raises, so the emulated path never returns the page's rows. -/
theorem c9_pagination_amended {α : Type} (rows : List α)
    (h : rows.length = 25) (w : Warehouse) (cOk lnOk pOk : Bool)
    (key : String) (size off : Nat) (n : Int) :
    ((sqlLimitOffset rows 20 (paginationOffset 2 20)).length = 5 ∧
      totalPagesOf 25 20 = 2) ∧
    (∃ k : Nat, executeSql ⟨w, cOk, lnOk, pOk, true⟩ campaignLinkPerfDataQ
        [.s key, .i size, .i off] = [[("total_clicks", Value.i k)]]) ∧
    mapOrRaise linkPerfItemOf [[("total_clicks", Value.i n)]] = none := by
  refine ⟨⟨?_, by decide⟩, ?_, rfl⟩
  · simp [sqlLimitOffset, paginationOffset, h]
  · refine ⟨(w.factlinkclicks.filter (fun f =>
      List.all [FactFilter.atcTrue] (factMatches f))).length, ?_⟩
    simp only [executeSql, emulateClickCount, dpq_test, dpq_count, dpq_flc,
      dpq_atc, dpq_dcamp, dpq_cnk, dpq_dlink, dpq_ltn, dpq_tatc]
    simp [argAt, applyDateFilters, convert_date_to_int]

/-- C9 (witness): 25 concrete rows for the direct side, and the
collapsed emulated data fetch on the 25-link warehouse. -/
theorem c9_amended_witness :
    ((sqlLimitOffset (List.replicate 25 0) 20 (paginationOffset 2 20)).length = 5 ∧
      totalPagesOf 25 20 = 2) ∧
    (∃ k : Nat, executeSql ⟨w25, true, true, true, true⟩ campaignLinkPerfDataQ
        [.s "A", .i 20, .i 20] = [[("total_clicks", Value.i k)]]) ∧
    mapOrRaise linkPerfItemOf [[("total_clicks", Value.i 0)]] = none :=
  c9_pagination_amended (List.replicate 25 0) (by decide) w25 true true true
    "A" 20 20 0

/-- C10 (counterexample): "2024-1-5" is not in the exact YYYY-MM-DD
form, yet the conversion accepts it (strptime tolerates unpadded month
and day) and yields the integer date key 20240105 — refuting that
every non-exact-form string yields no integer key. -/
theorem c10_counterexample :
    isExactYMDForm "2024-1-5" = false ∧
      convert_date_to_int (.s "2024-1-5") = some 20240105 := by
  constructor
  · decide
  · decide

/-- C10 (amended): date objects convert to the integer YYYYMMDD; the
emulated campaign count with both bounds present equals the count
under the converted bounds; when both conversions fail the execution
equals the unbounded one (the bounds are silently dropped, with no
error or flag); and a successful nonzero conversion is applied as a
`datekey >= n` / `datekey <= n` pair of fact-table filters. -/
theorem c10_date_conversion (w : Warehouse) (lOk pOk : Bool)
    (key : String) (v1 v2 : Value) (y m dd : Nat) (fs : List FactFilter)
    (n1 n2 : Nat) (f : FactClick) (hk : key ≠ "") :
    convert_date_to_int (.d y m dd) = some (toYYYYMMDD y m dd) ∧
    (emulatedCampaignTotalClicks ⟨w, true, lOk, pOk, true⟩ key
        (some v1) (some v2) =
      Value.i (campaignEmuCount w key (convert_date_to_int v1)
        (convert_date_to_int v2))) ∧
    (convert_date_to_int v1 = none → convert_date_to_int v2 = none →
      emulatedCampaignTotalClicks ⟨w, true, lOk, pOk, true⟩ key
          (some v1) (some v2) =
        emulatedCampaignTotalClicks ⟨w, true, lOk, pOk, true⟩ key
          none none) ∧
    (n1 ≠ 0 → n2 ≠ 0 →
      applyDateFilters fs (some n1) (some n2) =
        fs ++ [.dateGe n1, .dateLe n2]) ∧
    factMatches f (.dateGe n1) = decide (n1 ≤ f.datekey) ∧
    factMatches f (.dateLe n2) = decide (f.datekey ≤ n2) := by
  refine ⟨rfl, campaignClicksShapeD w lOk pOk key v1 v2 hk, ?_, ?_, rfl, rfl⟩
  · intro h1 h2
    rw [campaignClicksShapeD w lOk pOk key v1 v2 hk,
      campaignClicksShapeND w lOk pOk key hk, h1, h2]
  · intro h1 h2
    simp [applyDateFilters, h1, h2]

/-- C10 (witness): a malformed string bound is dropped (same result as
no bounds), and a date object is converted and applied. -/
theorem c10_witness :
    convert_date_to_int (.d 2024 1 5) = some (toYYYYMMDD 2024 1 5) ∧
    (emulatedCampaignTotalClicks ⟨wDemo, true, true, true, true⟩ "A"
        (some (.s "bogus")) (some (.i 7)) =
      emulatedCampaignTotalClicks ⟨wDemo, true, true, true, true⟩ "A"
        none none) ∧
    applyDateFilters [] (some 20240101) (some 20240131) =
      [.dateGe 20240101, .dateLe 20240131] :=
  ⟨(c10_date_conversion wDemo true true "A" (.s "bogus") (.i 7) 2024 1 5 []
      20240101 20240131 ⟨1, 1, 1, 1, false, 0⟩ (by decide)).1,
   (c10_date_conversion wDemo true true "A" (.s "bogus") (.i 7) 2024 1 5 []
      20240101 20240131 ⟨1, 1, 1, 1, false, 0⟩ (by decide)).2.2.1
     (by decide) (by decide),
   (c10_date_conversion wDemo true true "A" (.s "bogus") (.i 7) 2024 1 5 []
      20240101 20240131 ⟨1, 1, 1, 1, false, 0⟩ (by decide)).2.2.2.1
     (by decide) (by decide)⟩

end Incarts
